import Mathlib

/-!
Verification development for the NWB conversion pipeline (src/NWB_convert.py).

The Python source is shallowly embedded: numpy arrays become nested lists,
Python floats become rationals (all values handled by the claims are exact
decimals), fallible code returns Option, and the module-level global state
read by process_NP_FOCO_Ray is passed as an explicit parameter.
-/

namespace NWB

/-! ## Wavelength-code parsing (create_im_vol, lines 68–111)

The source does, per channel tuple (fluor, des, wave):
  excite      = float(wave.split('-')[0])
  emiss_mid   = float(wave.split('-')[1])
  emiss_range = float(wave.split('-')[2][:-1])
A missing token raises IndexError and a non-numeric token raises ValueError;
both are modelled as `none`. -/

/-- Python str.split(sep) on a character list: "a-b" gives ["a","b"], the
empty string gives [""], consecutive separators give empty tokens. -/
def splitOnChar (sep : Char) : List Char → List (List Char)
  | [] => [[]]
  | c :: rest =>
      let r := splitOnChar sep rest
      if c = sep then [] :: r
      else (c :: r.headD []) :: r.tail

/-- Python str.split(sep) applied to a String. -/
def pySplit (sep : Char) (s : String) : List (List Char) :=
  splitOnChar sep s.toList

/-- True when every character of the token is a decimal digit. -/
def allDigits (cs : List Char) : Bool := cs.all Char.isDigit

/-- Numeric value of a digit string (most significant digit first). -/
def natOfDigits (cs : List Char) : Nat :=
  cs.foldl (fun a c => 10 * a + (c.toNat - 48)) 0

/-- Python float() restricted to the unsigned decimal literals that occur in
wavelength codes: digits with at most one decimal point, at least one digit.
Anything else (including the empty string) fails, as float() raises ValueError. -/
def pyFloat (cs : List Char) : Option ℚ :=
  match splitOnChar '.' cs with
  | [a] =>
      if !a.isEmpty && allDigits a then some ((natOfDigits a : ℚ)) else none
  | [a, b] =>
      if (!a.isEmpty || !b.isEmpty) && allDigits a && allDigits b then
        some ((natOfDigits a : ℚ) + (natOfDigits b : ℚ) / (10 : ℚ) ^ b.length)
      else none
  | _ => none

/-- The three numbers create_im_vol reads out of a token list: tokens 0, 1 and
2 (token 2 with its final character dropped, wave.split('-')[2][:-1], which is
List.dropLast here). Tokens past index 2 are never looked at. -/
def parseWaveToks (toks : List (List Char)) : Option (ℚ × ℚ × ℚ) := do
  let t0 ← toks.get? 0
  let t1 ← toks.get? 1
  let t2 ← toks.get? 2
  let excite ← pyFloat t0
  let emiss_mid ← pyFloat t1
  let emiss_range ← pyFloat t2.dropLast
  pure (excite, emiss_mid, emiss_range)

/-- Parsing of one wavelength code, lines 75–77 of create_im_vol. -/
def parseWaveCode (wave : String) : Option (ℚ × ℚ × ℚ) :=
  parseWaveToks (pySplit '-' wave)

/-- The record built for one channel (lines 78–85). -/
structure OpticalChannelPlus where
  name : String
  description : String
  excitation_lambda : ℚ
  excitation_range : List ℚ
  emission_range : List ℚ
  emission_lambda : ℚ
  deriving Repr, DecidableEq

/-- One iteration of the channel loop of create_im_vol (lines 74–88). -/
def mkOptChannel (fluor des wave : String) : Option OpticalChannelPlus :=
  (parseWaveCode wave).map fun p =>
    { name := fluor
      description := des
      excitation_lambda := p.1
      excitation_range := [p.1 - 1.5, p.1 + 1.5]
      emission_range := [p.2.1 - p.2.2 / 2, p.2.1 + p.2.2 / 2]
      emission_lambda := p.2.1 }

/-- The ordered channel list assembled by create_im_vol; the first bad
channel specification aborts the whole call. -/
def create_im_vol_channels (channels : List (String × String × String)) :
    Option (List OpticalChannelPlus) :=
  channels.mapM fun c => mkOptChannel c.1 c.2.1 c.2.2

end NWB

namespace NWB

/-! ## Theorems for claims C5 and C7 -/

/-- C5: for every wavelength code that parses to (exc, mid, width), the
channel record carries excitation range [exc − 1.5, exc + 1.5] and emission
range [mid − width/2, mid + width/2]; in particular "488-525-50m" yields
excitation 488, emission range [500, 550] and emission midpoint 525. -/
theorem c5_channel_ranges :
    (∀ fluor des wave exc mid width,
        parseWaveCode wave = some (exc, mid, width) →
        mkOptChannel fluor des wave =
          some { name := fluor
                 description := des
                 excitation_lambda := exc
                 excitation_range := [exc - 1.5, exc + 1.5]
                 emission_range := [mid - width / 2, mid + width / 2]
                 emission_lambda := mid }) ∧
    parseWaveCode "488-525-50m" = some (488, 525, 50) ∧
    mkOptChannel "GFP-GCaMP" "Chroma ET 525/50" "488-525-50m" =
      some { name := "GFP-GCaMP"
             description := "Chroma ET 525/50"
             excitation_lambda := 488
             excitation_range := [486.5, 489.5]
             emission_range := [500, 550]
             emission_lambda := 525 } := by
  refine ⟨?_, by decide, ?_⟩
  · intro fluor des wave exc mid width h
    simp [mkOptChannel, h]
  · have h1 : parseWaveCode "488-525-50m" = some (488, 525, 50) := by decide
    simp [mkOptChannel, h1]
    norm_num

/-- Witness for C5 at the concrete code "488-525-50m". -/
theorem c5_channel_ranges_witness :
    mkOptChannel "GFP-GCaMP" "Chroma ET 525/50" "488-525-50m" =
      some { name := "GFP-GCaMP"
             description := "Chroma ET 525/50"
             excitation_lambda := 488
             excitation_range := [488 - 1.5, 488 + 1.5]
             emission_range := [525 - 50 / 2, 525 + 50 / 2]
             emission_lambda := 525 } :=
  c5_channel_ranges.1 "GFP-GCaMP" "Chroma ET 525/50" "488-525-50m" 488 525 50
    (by decide)

/-- C7 counterexample: "488-525-50m-9" splits into four tokens, not exactly
three, yet the parser succeeds (only the first three tokens are read). -/
theorem c7_counterexample :
    (pySplit '-' "488-525-50m-9").length = 4 ∧
    parseWaveCode "488-525-50m-9" = some (488, 525, 50) := by
  exact ⟨by decide, by decide⟩

/-- C7 amended: the parser fails exactly when the code splits into fewer than
three tokens, or one of the first two tokens, or the third token with its
final character dropped, fails numeric parsing; tokens past the third are
ignored, so a code with more than three tokens can succeed. -/
theorem c7_parse_failure_characterization (wave : String) :
    parseWaveCode wave = none ↔
      ((pySplit '-' wave).length < 3 ∨
       pyFloat ((pySplit '-' wave).getD 0 []) = none ∨
       pyFloat ((pySplit '-' wave).getD 1 []) = none ∨
       pyFloat ((pySplit '-' wave).getD 2 []).dropLast = none) := by
  unfold parseWaveCode parseWaveToks
  rcases h : pySplit '-' wave with _ | ⟨t0, _ | ⟨t1, _ | ⟨t2, rest⟩⟩⟩ <;>
    simp [List.getD, Option.bind_eq_none]
  rcases pyFloat t0 with _ | e <;> simp
  rcases pyFloat t1 with _ | m <;> simp
  rcases pyFloat t2.dropLast with _ | w <;> simp

/-! ## Volumetric segmentation builder (create_vol_seg_centers, lines 126–166)

For each row i of the (N,3) positions array the source appends the voxel mask
entry [np.uint(x), np.uint(y), np.uint(z), 1]. np.uint applied to a
nonnegative float is a C cast: it truncates toward zero, i.e. takes the floor
(negative inputs are platform-defined in numpy and never occur here). When
labels is None the source computes a list of empty strings but the
add_column call sits in the else branch, so no ID_labels column is added. -/

/-- np.uint on a nonnegative rational: truncation toward zero = floor. -/
def npUint (q : ℚ) : ℕ := (⌊q⌋).toNat

/-- The observable output of create_vol_seg_centers: the ordered ROI list
(voxel-mask entries (x, y, z, weight)) and the optional ID_labels column. -/
structure PlaneSegmentation where
  rois : List (ℕ × ℕ × ℕ × ℕ)
  idLabels : Option (List String)
  deriving Repr, DecidableEq

/-- create_vol_seg_centers (lines 126–166). The labels = None branch sets a
local variable to [''] * N but never passes it to add_column, so the
segmentation is returned without any label column. -/
def create_vol_seg_centers (positions : List (ℚ × ℚ × ℚ))
    (labels : Option (List String)) : PlaneSegmentation :=
  let rois := positions.map fun p => (npUint p.1, npUint p.2.1, npUint p.2.2, 1)
  match labels with
  | none => { rois := rois, idLabels := none }
  | some ls => { rois := rois, idLabels := some ls }

/-- C2 counterexample: for input row (2.7, 0, 0) the emitted voxel is
(2, 0, 0, 1) — the x coordinate is truncated to 2, but rounding 2.7 gives 3. -/
theorem c2_counterexample :
    (create_vol_seg_centers [(27 / 10, 0, 0)] none).rois = [(2, 0, 0, 1)] ∧
    round ((27 : ℚ) / 10) = 3 ∧ (2 : ℕ) ≠ 3 := by
  have h1 : ⌊(27 : ℚ) / 10⌋ = 2 := by norm_num [Int.floor_eq_iff]
  refine ⟨?_, ?_, by decide⟩
  · simp [create_vol_seg_centers, npUint, h1]
  · norm_num [round_eq, Int.floor_eq_iff]

/-- C2 amended: the builder emits exactly one ROI per input row, in input row
order, each a single-voxel point mask at the truncated (floor, for the
nonnegative coordinates that occur) (x, y, z) with weight 1. -/
theorem c2_order_preserved_truncated (positions : List (ℚ × ℚ × ℚ))
    (labels : Option (List String)) (i : ℕ) (x y z : ℚ)
    (h : i < positions.length)
    (hxyz : positions.getD i (0, 0, 0) = (x, y, z)) :
    (create_vol_seg_centers positions labels).rois.length = positions.length ∧
    (create_vol_seg_centers positions labels).rois.getD i (0, 0, 0, 1) =
      (npUint x, npUint y, npUint z, 1) := by
  have hrois : (create_vol_seg_centers positions labels).rois =
      positions.map fun p => (npUint p.1, npUint p.2.1, npUint p.2.2, 1) := by
    unfold create_vol_seg_centers
    cases labels <;> rfl
  constructor
  · rw [hrois, List.length_map]
  · rw [hrois]
    rw [List.getD_eq_getElem?_getD, List.getElem?_map]
    rw [List.getElem?_eq_getElem h]
    have : positions[i] = (x, y, z) := by
      rw [← hxyz, List.getD_eq_getElem?_getD, List.getElem?_eq_getElem h]
      rfl
    simp [this]

/-- C2 witness: one concrete row (2.7, 0.2, 3) at index 0. -/
theorem c2_order_preserved_truncated_witness :
    (create_vol_seg_centers [(27 / 10, 1 / 5, 3)] none).rois.length =
      ([((27 : ℚ) / 10, (1 : ℚ) / 5, (3 : ℚ))]).length ∧
    (create_vol_seg_centers [(27 / 10, 1 / 5, 3)] none).rois.getD 0 (0, 0, 0, 1) =
      (npUint (27 / 10), npUint (1 / 5), npUint 3, 1) :=
  c2_order_preserved_truncated [(27 / 10, 1 / 5, 3)] none 0 (27 / 10) (1 / 5) 3
    (by decide) rfl

/-- C6: called with the label array omitted, the builder returns a
segmentation with no ID_labels column at all — the empty-string default the
source computes is dead, so the schema differs from the labelled case. -/
theorem c6_labels_omitted_no_column :
    (create_vol_seg_centers [(1, 2, 3), (4, 5, 6)] none).idLabels = none ∧
    (create_vol_seg_centers [(1, 2, 3), (4, 5, 6)]
        (some ["AVA", "RID"])).idLabels = some ["AVA", "RID"] := by
  exact ⟨rfl, rfl⟩

/-! ## Chunked volume reader (iter_calc_tiff, lines 189–212)

The generator computes timepoints = int(pages / numZ) — floor division with
no divisibility check — and for each timepoint i fills an array
tpoint = np.zeros((pageshape[1], pageshape[0], numZ)) with
tpoint[:, :, j] = np.transpose(tif.pages[i*numZ + j]), finally casting to
uint16. pageshape is the shape of page 0. A TIFF page is modelled as its
row-major pixel matrix (a list of rows). -/

/-- A TIFF page: rows of pixel values. -/
abbrev TiffPage := List (List ℕ)

/-- pageshape[0] of page 0: its number of rows (lines 198, 326). -/
def pageShape0 (pages : List TiffPage) : ℕ := (pages.getD 0 []).length

/-- pageshape[1] of page 0: its number of columns (lines 198, 327). -/
def pageShape1 (pages : List TiffPage) : ℕ :=
  ((pages.getD 0 []).getD 0 []).length

/-- The volume yielded for timepoint i (lines 202–208): entry [x][y][j] is
pixel (y, x) of page i*numZ + j, cast to uint16. The outer two extents come
from np.zeros((pageshape[1], pageshape[0], numZ)). -/
def calcTimepoint (pages : List TiffPage) (numZ i : ℕ) :
    List (List (List ℕ)) :=
  (List.range (pageShape1 pages)).map fun x =>
    (List.range (pageShape0 pages)).map fun y =>
      (List.range numZ).map fun j =>
        (((pages.getD (i * numZ + j) []).getD y []).getD x 0) % 65536

/-- iter_calc_tiff as the finite sequence of chunks it yields: one chunk per
timepoint, timepoints = totalPages / numZ rounded down (line 196). -/
def iter_calc_tiff (pages : List TiffPage) (numZ : ℕ) :
    List (List (List (List ℕ))) :=
  (List.range (pages.length / numZ)).map fun i => calcTimepoint pages numZ i

/-- Shape [d0, d1, d2] of a nested-list 3-D array. -/
def arrShape3 (a : List (List (List ℕ))) : List ℕ :=
  [a.length, (a.getD 0 []).length, ((a.getD 0 []).getD 0 []).length]

/-- The dimension metadata recorded on the calcium image series (lines
325–328 and 344): [numx, numy, numz] with numx = page.shape[0] and
numy = page.shape[1] of page 0. -/
def calcDimension (pages : List TiffPage) (numZ : ℕ) : List ℕ :=
  [pageShape0 pages, pageShape1 pages, numZ]

/-- Seven 2-by-2 pages: a page count not divisible by numZ = 2. -/
def sevenPages : List TiffPage := List.replicate 7 [[0, 0], [0, 0]]

/-- C1 counterexample: with 7 pages and numZ = 2 the reader yields 3 chunks
(int(7/2) = 3) and raises nothing, although 7 is not divisible by 2 — there
is no ShapeMismatch check anywhere in iter_calc_tiff. -/
theorem c1_counterexample :
    (iter_calc_tiff sevenPages 2).length = 3 ∧ 7 % 2 ≠ 0 := by
  constructor
  · simp [iter_calc_tiff, sevenPages]
  · decide

/-- C1 amended: the reader always yields exactly ⌊totalPages / Z⌋ chunks; in
particular exactly totalPages / Z when Z divides totalPages, and when it does
not, the trailing totalPages mod Z pages are silently dropped instead of any
failure being raised. -/
theorem c1_chunk_count (pages : List TiffPage) (numZ : ℕ) (h : 0 < numZ) :
    (iter_calc_tiff pages numZ).length = pages.length / numZ ∧
    (pages.length % numZ = 0 →
      (iter_calc_tiff pages numZ).length * numZ = pages.length) := by
  constructor
  · simp [iter_calc_tiff]
  · intro hdvd
    simp only [iter_calc_tiff, List.length_map, List.length_range]
    exact Nat.div_mul_cancel (Nat.dvd_of_mod_eq_zero hdvd)

/-- C1 witness: 6 pages, numZ = 2, evenly divisible. -/
theorem c1_chunk_count_witness :
    (iter_calc_tiff (List.replicate 6 [[0, 0], [0, 0]]) 2).length =
      (List.replicate 6 ([[0, 0], [0, 0]] : TiffPage)).length / 2 ∧
    ((List.replicate 6 ([[0, 0], [0, 0]] : TiffPage)).length % 2 = 0 →
      (iter_calc_tiff (List.replicate 6 [[0, 0], [0, 0]]) 2).length * 2 =
        (List.replicate 6 ([[0, 0], [0, 0]] : TiffPage)).length) :=
  c1_chunk_count (List.replicate 6 [[0, 0], [0, 0]]) 2 (by decide)

/-- Twelve pages of 2 rows by 3 columns: a non-square page shape. -/
def rectPages : List TiffPage := List.replicate 12 [[0, 0, 0], [0, 0, 0]]

/-- Shape of a dense 3-D array built from three nested index ranges. -/
theorem arrShape3_rangeMap (a b c : ℕ) (f : ℕ → ℕ → ℕ → ℕ)
    (ha : 0 < a) (hb : 0 < b) :
    arrShape3 ((List.range a).map fun x =>
      (List.range b).map fun y => (List.range c).map fun j => f x y j) =
      [a, b, c] := by
  simp [arrShape3, List.getD_eq_getElem?_getD, List.getElem?_map,
    List.getElem?_range, ha, hb]

/-- C4 counterexample: for 2-row by 3-column pages with numZ = 12 the single
yielded chunk has shape [3, 2, 12], while the dimension metadata recorded on
the calcium image series is [numx, numy, numz] = [2, 3, 12]: the first two
axes are swapped whenever the page is not square. -/
theorem c4_counterexample :
    (iter_calc_tiff rectPages 12).map arrShape3 = [[3, 2, 12]] ∧
    calcDimension rectPages 12 = [2, 3, 12] ∧
    ([3, 2, 12] : List ℕ) ≠ [2, 3, 12] := by
  refine ⟨?_, by decide, by decide⟩
  decide

/-- C4 amended: every chunk has the one constant shape
[pageshape[1], pageshape[0], numZ], but the declared dimension metadata is
[pageshape[0], pageshape[1], numZ], so a chunk's shape equals the declared
metadata exactly when page 0 is square. -/
theorem c4_chunk_shape (pages : List TiffPage) (numZ : ℕ)
    (c : List (List (List ℕ)))
    (h0 : 0 < pageShape0 pages) (h1 : 0 < pageShape1 pages) (hz : 0 < numZ)
    (hc : c ∈ iter_calc_tiff pages numZ) :
    arrShape3 c = [pageShape1 pages, pageShape0 pages, numZ] ∧
    calcDimension pages numZ = [pageShape0 pages, pageShape1 pages, numZ] ∧
    (arrShape3 c = calcDimension pages numZ ↔
      pageShape0 pages = pageShape1 pages) := by
  obtain ⟨i, hi, rfl⟩ := List.mem_map.mp hc
  have hshape : arrShape3 (calcTimepoint pages numZ i) =
      [pageShape1 pages, pageShape0 pages, numZ] := by
    unfold calcTimepoint
    exact arrShape3_rangeMap _ _ _ _ h1 h0
  refine ⟨hshape, rfl, ?_⟩
  rw [hshape]
  unfold calcDimension
  constructor
  · intro he
    exact (List.cons_eq_cons.mp he).1.symm
  · intro he
    rw [he]

/-- C4 witness: the first chunk of the non-square concrete stack. -/
theorem c4_chunk_shape_witness :
    arrShape3 (calcTimepoint rectPages 12 0) =
      [pageShape1 rectPages, pageShape0 rectPages, 12] ∧
    calcDimension rectPages 12 =
      [pageShape0 rectPages, pageShape1 rectPages, 12] ∧
    (arrShape3 (calcTimepoint rectPages 12 0) = calcDimension rectPages 12 ↔
      pageShape0 rectPages = pageShape1 rectPages) :=
  c4_chunk_shape rectPages 12 (calcTimepoint rectPages 12 0)
    (by decide) (by decide) (by decide) (by decide)

/-! ## Resource release of the iter_calc_tiff generator (claim C8)

Control-flow model of the generator. TiffFile(filename) opens the handle on
entry (line 192); tif.close() sits on line 210, after the for-loop over
timepoints, with no try/finally and no context manager. A Python generator
runs that line only when the consumer keeps calling next() past the last
yield so the loop finishes; if the consumer abandons the generator (it is
garbage-collected, or .close() is called), GeneratorExit is raised at the
suspended yield and propagates out of the loop, skipping line 210; an
exception while reading a page likewise propagates and skips it. -/

/-- Observable outcome of one run of the generator: how many chunks reached
the consumer and whether tif.close() on line 210 was executed. -/
structure GeneratorRun where
  chunksDelivered : ℕ
  closed : Bool
  deriving Repr, DecidableEq

/-- One run of iter_calc_tiff on a source with `pages` pages and declared
depth `numZ`, whose consumer calls next() `requests` times before abandoning
the generator; `failAt = some p` means reading page p raises an IOError.
tif.close() executes only when the loop over all timepoints completes, which
needs the consumer to request past the last chunk with no read failure. -/
def runIterCalcTiff (pages numZ requests : ℕ) (failAt : Option ℕ) :
    GeneratorRun :=
  let timepoints := pages / numZ
  match failAt with
  | some p =>
      if p / numZ < min requests timepoints then
        { chunksDelivered := p / numZ, closed := false }
      else if timepoints < requests then
        { chunksDelivered := timepoints, closed := true }
      else
        { chunksDelivered := requests, closed := false }
  | none =>
      if timepoints < requests then
        { chunksDelivered := timepoints, closed := true }
      else
        { chunksDelivered := requests, closed := false }

/-- C8 counterexample: a 24-page, numZ = 12 source. A consumer that takes one
chunk of the two and abandons the stream leaves the handle open, and a read
error on page 13 (during the second chunk) also leaves it open — the close on
line 210 runs on neither exit path. -/
theorem c8_counterexample :
    (runIterCalcTiff 24 12 1 none).closed = false ∧
    (runIterCalcTiff 24 12 1 none).chunksDelivered = 1 ∧
    (runIterCalcTiff 24 12 3 (some 13)).closed = false := by
  refine ⟨?_, ?_, ?_⟩ <;> decide

/-- C8 amended: the handle is released only on normal completion — the
consumer must drain the stream past its last chunk and no read may fail; on
early abandonment and on a read error the close call is skipped. -/
theorem c8_close_only_on_completion (pages numZ requests p : ℕ)
    (hp : p / numZ < min requests (pages / numZ)) :
    ((runIterCalcTiff pages numZ requests none).closed = true ↔
      pages / numZ < requests) ∧
    (runIterCalcTiff pages numZ requests (some p)).closed = false := by
  constructor
  · unfold runIterCalcTiff
    by_cases hlt : pages / numZ < requests <;> simp [hlt]
  · unfold runIterCalcTiff
    simp [hp]

/-- C8 witness: 24 pages, numZ = 12, a consumer draining 3 chunks, a read
failure planted at page 13. -/
theorem c8_close_only_on_completion_witness :
    ((runIterCalcTiff 24 12 3 none).closed = true ↔ 24 / 12 < 3) ∧
    (runIterCalcTiff 24 12 3 (some 13)).closed = false :=
  c8_close_only_on_completion 24 12 3 13 (by decide)

/-! ## ROI linkage (process_NP_FOCO_Ray lines 348–395, process_yemini lines
531–598)

process_NP_FOCO_Ray reads the gce quantification table, groups its rows by
blob_ix in order of first appearance (pandas unique, line 355) into
blobquant of shape (N, T, 5), builds one segmentation per timepoint from
blobquant[:, t, 0:3], takes gce_data = transpose(blobquant[:, :, 3]) of
shape (T, N) and declares rt_region = arange(blobquant.shape[0]) over
volsegs[0]. process_yemini builds volsegs from old positions, an rt_region
= arange(positions.shape[0]) over volsegs[0], and attaches two response
series against that same region. -/

/-- One row of the gce quantification csv (columns used on line 352). -/
structure GceRow where
  x : ℚ
  y : ℚ
  z : ℚ
  gceQuant : ℚ
  id : String
  t : ℕ
  blobIx : ℕ
  deriving Repr, DecidableEq, Inhabited

/-- pandas unique: values in order of first appearance (line 355). -/
def uniqueFirst (l : List ℕ) : List ℕ :=
  l.foldl (fun acc v => if v ∈ acc then acc else acc ++ [v]) []

/-- blobquant (lines 354–363): one group of rows per unique blob_ix, each
group keeping the table's row order. np.vstack requires all groups to have
one row per timepoint for the array to form. -/
def blobquant (rows : List GceRow) : List (List GceRow) :=
  (uniqueFirst (rows.map GceRow.blobIx)).map fun ix =>
    rows.filter fun r => r.blobIx == ix

/-- blobquant.shape[1]: the number of timepoints (line 367). -/
def blobT (bq : List (List GceRow)) : ℕ := (bq.getD 0 []).length

/-- blobquant[:, t, 0:3] (line 368): the XYZ triple of every blob at
timepoint t (np.squeeze is the identity on this (N, 3) slice for N ≥ 2). -/
def blobPositions (bq : List (List GceRow)) (t : ℕ) : List (ℚ × ℚ × ℚ) :=
  bq.map fun g => ((g.getD t default).x, (g.getD t default).y,
    (g.getD t default).z)

/-- volsegs (lines 365–374): one segmentation per timepoint, no labels. -/
def rayVolsegs (rows : List GceRow) : List PlaneSegmentation :=
  (List.range (blobT (blobquant rows))).map fun t =>
    create_vol_seg_centers (blobPositions (blobquant rows) t) none

/-- np.transpose of a rectangular matrix given as a list of rows. -/
def matTranspose (m : List (List ℚ)) : List (List ℚ) :=
  (List.range ((m.getD 0 []).length)).map fun j => m.map fun row => row.getD j 0

/-- gce_data = np.transpose(blobquant[:, :, 3]) (line 381): entry [t][i] is
the quantification of blob i at timepoint t. -/
def rayGceData (rows : List GceRow) : List (List ℚ) :=
  matTranspose ((blobquant rows).map fun g => g.map GceRow.gceQuant)

/-- rt_region = list(np.arange(blobquant.shape[0])) built over volsegs[0]
(lines 383–386). -/
def rayRtRegion (rows : List GceRow) : List ℕ :=
  List.range (blobquant rows).length

/-- positiondata[:, :, [1, 0, 2]] (lines 531–532): swap the first two
coordinates of every triple. -/
def swapXY (p : ℚ × ℚ × ℚ) : ℚ × ℚ × ℚ := (p.2.1, p.1, p.2.2)

/-- Apply the coordinate swap to an (N, T) array of triples. -/
def yemSwap (a : List (List (ℚ × ℚ × ℚ))) : List (List (ℚ × ℚ × ℚ)) :=
  a.map fun row => row.map swapXY

/-- process_yemini volsegs (lines 534–543): one segmentation per raw-position
timepoint. -/
def yemVolsegs (oldpos : List (List (ℚ × ℚ × ℚ))) : List PlaneSegmentation :=
  (List.range ((yemSwap oldpos).getD 0 []).length).map fun t =>
    create_vol_seg_centers ((yemSwap oldpos).map fun r => r.getD t (0, 0, 0))
      none

/-- process_yemini dNMF segmentations (lines 550–558). -/
def yemProcVolsegs (positiondata : List (List (ℚ × ℚ × ℚ))) :
    List PlaneSegmentation :=
  (List.range ((yemSwap positiondata).getD 0 []).length).map fun t =>
    create_vol_seg_centers
      ((yemSwap positiondata).map fun r => r.getD t (0, 0, 0)) none

/-- rt_region = list(np.arange(positions.shape[0])) over volsegs[0]
(lines 567–570). -/
def yemRtRegion (positiondata : List (List (ℚ × ℚ × ℚ))) : List ℕ :=
  List.range (yemSwap positiondata).length

/-- gce_data = np.transpose(activitydata) (line 565). -/
def yemSignalData (activitydata : List (List ℚ)) : List (List ℚ) :=
  matTranspose activitydata

/-- A response series: its data matrix and the ROI region it is addressed
against. -/
structure RoiResponseSeries where
  data : List (List ℚ)
  rois : List ℕ
  deriving Repr, DecidableEq

/-- SignalCalciumImResponseSeries (lines 572–579). -/
def yemSignalSeries (positiondata : List (List (ℚ × ℚ × ℚ)))
    (activitydata : List (List ℚ)) : RoiResponseSeries :=
  { data := yemSignalData activitydata, rois := yemRtRegion positiondata }

/-- dNMFCalciumImResponseSeries (lines 586–593): same data and the very same
rt_region object. -/
def yemDnmfSeries (positiondata : List (List (ℚ × ℚ × ℚ)))
    (activitydata : List (List ℚ)) : RoiResponseSeries :=
  { data := yemSignalData activitydata, rois := yemRtRegion positiondata }

/-- SignalCalciumImResponseSeries of process_NP_FOCO_Ray (lines 388–395): the
one response series attached for that acquisition, addressed against
rt_region. -/
def raySignalSeries (rows : List GceRow) : RoiResponseSeries :=
  { data := rayGceData rows, rois := rayRtRegion rows }

/-- Element j of a map over List.range n, for j < n. -/
theorem getD_range_map {α : Type} (n : ℕ) (f : ℕ → α) (d : α) (j : ℕ)
    (h : j < n) : ((List.range n).map f).getD j d = f j := by
  rw [List.getD_eq_getElem?_getD, List.getElem?_map, List.getElem?_range h]
  rfl

/-- The ROI list of create_vol_seg_centers, independent of the labels. -/
theorem create_vol_seg_centers_rois (positions : List (ℚ × ℚ × ℚ))
    (labels : Option (List String)) :
    (create_vol_seg_centers positions labels).rois =
      positions.map fun p => (npUint p.1, npUint p.2.1, npUint p.2.2, 1) := by
  unfold create_vol_seg_centers
  cases labels <;> rfl

/-- The transpose has one row per column of a nonragged input. -/
theorem matTranspose_length (m : List (List ℚ)) :
    (matTranspose m).length = (m.getD 0 []).length := by
  simp [matTranspose]

/-- Every row of the transpose has one entry per row of the input. -/
theorem matTranspose_row_length (m : List (List ℚ)) (j : ℕ)
    (h : j < (m.getD 0 []).length) :
    ((matTranspose m).getD j []).length = m.length := by
  unfold matTranspose
  rw [getD_range_map _ _ _ _ h, List.length_map]

/-- The first dimension of blobquant[:, :, 3] is blobT. -/
theorem blobquant_quant_col (bq : List (List GceRow)) :
    ((bq.map fun g => g.map GceRow.gceQuant).getD 0 []).length = blobT bq := by
  cases bq with
  | nil => simp [blobT]
  | cons g t => simp [blobT]

/-- C3: in both pipelines the rt_region is [0 .. N−1] where N is the ROI
count of the timepoint-0 segmentation, the response matrix has one row per
timepoint (in the Ray pipeline one row per blobquant timepoint, in the
yemini pipeline one row per timepoint segmentation) and exactly N columns,
and every response series of the acquisition — the single Ray series, and
both yemini series — carries that same region. -/
theorem c3_canonical_roi_linkage (rows : List GceRow)
    (positiondata oldpos : List (List (ℚ × ℚ × ℚ)))
    (activitydata : List (List ℚ)) (rowIdx rowIdx2 : ℕ)
    (hT : 0 < blobT (blobquant rows))
    (hrect : ∀ g ∈ blobquant rows, g.length = blobT (blobquant rows))
    (hrow : rowIdx < (rayGceData rows).length)
    (hT2 : 0 < ((yemSwap oldpos).getD 0 []).length)
    (hsame : oldpos.length = positiondata.length)
    (hact : activitydata.length = positiondata.length)
    (hTcols : (activitydata.getD 0 []).length =
      ((yemSwap oldpos).getD 0 []).length)
    (hrow2 : rowIdx2 < (yemSignalData activitydata).length) :
    rayRtRegion rows =
      List.range ((rayVolsegs rows).getD 0 ⟨[], none⟩).rois.length ∧
    (raySignalSeries rows).rois = rayRtRegion rows ∧
    (rayGceData rows).length = blobT (blobquant rows) ∧
    ((rayGceData rows).getD rowIdx []).length = (rayRtRegion rows).length ∧
    (yemSignalSeries positiondata activitydata).rois =
      yemRtRegion positiondata ∧
    (yemDnmfSeries positiondata activitydata).rois =
      yemRtRegion positiondata ∧
    yemRtRegion positiondata =
      List.range ((yemVolsegs oldpos).getD 0 ⟨[], none⟩).rois.length ∧
    (yemSignalData activitydata).length = (yemVolsegs oldpos).length ∧
    ((yemSignalData activitydata).getD rowIdx2 []).length =
      (yemRtRegion positiondata).length := by
  have hnp1 : ((rayVolsegs rows).getD 0 ⟨[], none⟩).rois.length =
      (blobquant rows).length := by
    unfold rayVolsegs
    rw [getD_range_map _ _ _ _ hT, create_vol_seg_centers_rois,
      List.length_map]
    unfold blobPositions
    rw [List.length_map]
  have hy1 : ((yemVolsegs oldpos).getD 0 ⟨[], none⟩).rois.length =
      oldpos.length := by
    unfold yemVolsegs
    rw [getD_range_map _ _ _ _ hT2, create_vol_seg_centers_rois,
      List.length_map, List.length_map]
    unfold yemSwap
    rw [List.length_map]
  refine ⟨?_, rfl, ?_, ?_, rfl, rfl, ?_, ?_, ?_⟩
  · rw [hnp1]
    rfl
  · unfold rayGceData
    rw [matTranspose_length, blobquant_quant_col]
  · unfold rayGceData at hrow ⊢
    rw [matTranspose_length, blobquant_quant_col] at hrow
    rw [matTranspose_row_length _ _ (by rw [blobquant_quant_col]; exact hrow),
      List.length_map]
    unfold rayRtRegion
    rw [List.length_range]
  · rw [hy1, hsame]
    unfold yemRtRegion yemSwap
    rw [List.length_map]
  · unfold yemSignalData
    rw [matTranspose_length, hTcols]
    unfold yemVolsegs
    rw [List.length_map, List.length_range]
  · unfold yemSignalData at hrow2 ⊢
    rw [matTranspose_length] at hrow2
    rw [matTranspose_row_length _ _ hrow2, hact]
    unfold yemRtRegion yemSwap
    rw [List.length_map, List.length_range]

/-- A concrete gce table: two blobs, two timepoints each. -/
def c3rows : List GceRow :=
  [⟨1, 2, 3, 10, "", 0, 0⟩, ⟨4, 5, 6, 20, "", 0, 1⟩,
   ⟨1, 2, 3, 11, "", 1, 0⟩, ⟨4, 5, 6, 21, "", 1, 1⟩]

/-- Concrete (N, T) = (2, 2) position array for the yemini path. -/
def c3pos : List (List (ℚ × ℚ × ℚ)) :=
  [[(1, 2, 3), (1, 2, 3)], [(4, 5, 6), (4, 5, 6)]]

/-- Concrete (N, T) = (2, 2) activity matrix for the yemini path. -/
def c3act : List (List ℚ) := [[1, 2], [3, 4]]

/-- C3 witness: two blobs over two timepoints in the gce table and a matching
two-neuron, two-timepoint yemini acquisition. -/
theorem c3_canonical_roi_linkage_witness :
    rayRtRegion c3rows =
      List.range ((rayVolsegs c3rows).getD 0 ⟨[], none⟩).rois.length ∧
    (raySignalSeries c3rows).rois = rayRtRegion c3rows ∧
    (rayGceData c3rows).length = blobT (blobquant c3rows) ∧
    ((rayGceData c3rows).getD 0 []).length = (rayRtRegion c3rows).length ∧
    (yemSignalSeries c3pos c3act).rois = yemRtRegion c3pos ∧
    (yemDnmfSeries c3pos c3act).rois = yemRtRegion c3pos ∧
    yemRtRegion c3pos =
      List.range ((yemVolsegs c3pos).getD 0 ⟨[], none⟩).rois.length ∧
    (yemSignalData c3act).length = (yemVolsegs c3pos).length ∧
    ((yemSignalData c3act).getD 0 []).length = (yemRtRegion c3pos).length :=
  c3_canonical_roi_linkage c3rows c3pos c3pos c3act 0 0
    (by decide) (by decide) (by decide) (by decide) rfl rfl (by decide)
    (by decide)

/-! ## Global-state dependence and determinism of process_NP_FOCO_Ray
(lines 215–413, driver lines 615–635)

Lines 247 and 312 compare the name `folder` — the module-level loop variable
of the __main__ driver — rather than the `dataset` parameter. The global is
modelled as an explicit Option String argument; none models the global being
unset, in which case the comparison raises NameError. -/

/-- The channel table of the `folder < '20230322'` branch (line 248). -/
def channelsPre0322 : List (String × String × String) :=
  [("mTagBFP2", "Chroma ET 460/50", "405-460-50m"),
   ("CyOFP1", "Chroma ET 605/70", "488-605-70m"),
   ("GFP-GCaMP", "Chroma ET 525/50", "488-525-50m"),
   ("mNeptune 2.5", "Chroma ET 700/75", "561-700-75m"),
   ("Tag RFP-T", "Chroma ET 605/70", "561-605-70m"),
   ("mNeptune 2.5-far red", "Chroma ET 700/75", "639-700-75m")]

/-- The channel table of the else branch (line 251). -/
def channelsPost0322 : List (String × String × String) :=
  [("mTagBFP2", "Chroma ET 460/50", "405-460-50m"),
   ("CyOFP1", "Chroma ET 605/70", "488-605-70m"),
   ("CyOFP1-high filter", "Chroma ET 700/75", "488-700-75m"),
   ("GFP-GCaMP", "Chroma ET 525/50", "488-525-50m"),
   ("mNeptune 2.5", "Chroma ET 700/75", "561-700-75m"),
   ("Tag RFP-T", "Chroma ET 605/70", "561-605-70m"),
   ("mNeptune 2.5-far red", "Chroma ET 700/75", "639-700-75m")]

/-- Lexicographic comparison of character lists by code point: the order
Python's `<` uses on strings. -/
def charListLt : List Char → List Char → Bool
  | _, [] => false
  | [], _ :: _ => true
  | a :: as, b :: bs =>
      if a.toNat < b.toNat then true
      else if b.toNat < a.toNat then false
      else charListLt as bs

/-- Python string comparison a < b. -/
def pyStrLt (a b : String) : Bool := charListLt a.toList b.toList

/-- The channel table, RGBW selection and calcium grid spacing chosen inside
process_NP_FOCO_Ray (lines 247–252 and 312–315). Both branches compare the
global `folder`, passed here explicitly; the `dataset` parameter is accepted
but never consulted, exactly as in the source. -/
def rayChannelConfig (globalFolder : Option String) (dataset : String) :
    Option ((List (String × String × String)) × List ℕ × List ℚ) :=
  match globalFolder with
  | none => none
  | some f =>
      let ch := if pyStrLt f "20230322" then (channelsPre0322, [0, 1, 3, 4])
        else (channelsPost0322, [0, 1, 4, 6])
      let calcScale : List ℚ := if pyStrLt f "20230506" then
        [0.3208, 0.3208, 2.5] else [0.1604, 0.1604, 3.0]
      some (ch.1, ch.2, calcScale)

/-- C10: the configuration is a function of the global `folder` alone — it
ignores the dataset argument entirely, two calls with identical arguments
but different globals disagree, and with the global unset the call fails
(NameError). -/
theorem c10_global_folder_dependence :
    (∀ g d₁ d₂, rayChannelConfig g d₁ = rayChannelConfig g d₂) ∧
    (∀ d, rayChannelConfig none d = none) ∧
    rayChannelConfig (some "20230101-00-00-00") "20230101-00-00-00" ≠
      rayChannelConfig (some "20230601-00-00-00") "20230101-00-00-00" := by
  refine ⟨fun g d₁ d₂ => rfl, fun d => rfl, ?_⟩
  intro h
  have hlt1 : pyStrLt "20230101-00-00-00" "20230322" = true := by decide
  have hlt2 : pyStrLt "20230601-00-00-00" "20230322" = false := by decide
  have hlt3 : pyStrLt "20230101-00-00-00" "20230506" = true := by decide
  have hlt4 : pyStrLt "20230601-00-00-00" "20230506" = false := by decide
  simp only [rayChannelConfig, hlt1, hlt2, hlt3, hlt4, if_true, if_false,
    Bool.false_eq_true, ite_true, ite_false] at h
  have h2 := congrArg (fun o =>
    (o.getD (([], [], []) :
      (List (String × String × String)) × List ℕ × List ℚ)).2.1) h
  exact absurd h2 (by decide)

/-- The observable outputs of one run of process_NP_FOCO_Ray that the
idempotence property compares, plus the one wall-clock-derived field
(file_create_date, stamped by the container library at write time). -/
structure RayOutputs where
  config : Option ((List (String × String × String)) × List ℕ × List ℚ)
  npRois : List (ℕ × ℕ × ℕ × ℕ)
  npLabels : Option (List String)
  calcSegs : List PlaneSegmentation
  rtRegion : List ℕ
  responseData : List (List ℚ)
  fileCreateDate : ℕ
  deriving Repr, DecidableEq

/-- process_NP_FOCO_Ray as a function of its file inputs (the blobs.csv
coordinate rows and ID column, lines 268–274, and the gce table, lines
348–363), the global `folder`, and the wall clock `now`. The labels are the
IDs with missing values replaced by empty strings (line 272). Only
fileCreateDate depends on the clock. -/
def process_NP_FOCO_Ray (globalFolder : Option String) (dataset : String)
    (blobPos : List (ℚ × ℚ × ℚ)) (blobIDs : List (Option String))
    (gceRows : List GceRow) (now : ℕ) : RayOutputs :=
  let labels := blobIDs.map fun o => o.getD ""
  let npSeg := create_vol_seg_centers blobPos (some labels)
  { config := rayChannelConfig globalFolder dataset
    npRois := npSeg.rois
    npLabels := npSeg.idLabels
    calcSegs := rayVolsegs gceRows
    rtRegion := rayRtRegion gceRows
    responseData := rayGceData gceRows
    fileCreateDate := now }

/-- C9: two runs of the pipeline on identical inputs agree on every output
except the wall-clock-derived field — ROI positions, labels, per-timepoint
segmentations, the canonical region and the response matrix are all equal
whatever the two run times were. -/
theorem c9_two_run_determinism (globalFolder : Option String)
    (dataset : String) (blobPos : List (ℚ × ℚ × ℚ))
    (blobIDs : List (Option String)) (gceRows : List GceRow)
    (now₁ now₂ : ℕ) :
    (process_NP_FOCO_Ray globalFolder dataset blobPos blobIDs gceRows
        now₁).npRois =
      (process_NP_FOCO_Ray globalFolder dataset blobPos blobIDs gceRows
        now₂).npRois ∧
    (process_NP_FOCO_Ray globalFolder dataset blobPos blobIDs gceRows
        now₁).npLabels =
      (process_NP_FOCO_Ray globalFolder dataset blobPos blobIDs gceRows
        now₂).npLabels ∧
    (process_NP_FOCO_Ray globalFolder dataset blobPos blobIDs gceRows
        now₁).calcSegs =
      (process_NP_FOCO_Ray globalFolder dataset blobPos blobIDs gceRows
        now₂).calcSegs ∧
    (process_NP_FOCO_Ray globalFolder dataset blobPos blobIDs gceRows
        now₁).rtRegion =
      (process_NP_FOCO_Ray globalFolder dataset blobPos blobIDs gceRows
        now₂).rtRegion ∧
    (process_NP_FOCO_Ray globalFolder dataset blobPos blobIDs gceRows
        now₁).responseData =
      (process_NP_FOCO_Ray globalFolder dataset blobPos blobIDs gceRows
        now₂).responseData ∧
    (process_NP_FOCO_Ray globalFolder dataset blobPos blobIDs gceRows
        now₁).config =
      (process_NP_FOCO_Ray globalFolder dataset blobPos blobIDs gceRows
        now₂).config := by
  exact ⟨rfl, rfl, rfl, rfl, rfl, rfl⟩

end NWB
